import Mathlib

/-!
Verification development for the msf-nfl-slurper data-collection module
(`datacollection.py`).  The Python module is shallowly embedded: the
filesystem working directory becomes an explicit association list from
filenames to JSON documents, the remote feed client (`msf.msf_get_data`)
becomes an oracle indexed by the number of network calls already made,
`time.sleep` becomes a log of sleep durations, and Python exceptions that
escape the module (KeyError from `dict.pop`, UnboundLocalError from
reading a never-assigned local, re-raised `Warning`s for fatal statuses,
FileNotFoundError from `os.remove`/`open`) become explicit crash
outcomes.  Logging statements, which affect no claim, are omitted.
The unbounded `while retry > 0` loop is given a fuel parameter; running
out of fuel is a distinguished outcome that no theorem treats as normal
termination.
-/

namespace Slurper

/-- JSON-shaped documents, mirroring the values `json.load`/`json.dump`
and `msf_get_data` traffic in.  Objects carry their fields in order, as
Python dicts do. -/
inductive Json where
  | obj : List (String × Json) → Json
  | arr : List Json → Json
  | str : String → Json
  | num : Int → Json
  | bool : Bool → Json
  | null : Json

/-- Python truthiness of a JSON value (`not data` in the source tests the
negation of this): containers and strings are truthy iff non-empty. -/
def Json.truthy : Json → Bool
  | .obj fields => !fields.isEmpty
  | .arr items => !items.isEmpty
  | .str s => !s.isEmpty
  | .num n => n != 0
  | .bool b => b
  | .null => false

/-- Outcomes of Python exceptions that escape the module's own handling. -/
inductive Crash where
  | keyError        -- `data.pop("lastUpdatedOn")` on a dict lacking the key
  | attrError       -- `.pop` on a non-dict value
  | nameError       -- reading a local variable that was never assigned
  | fileNotFound    -- `os.remove`/`open` on a missing file
  | warningRaised : Nat → Crash  -- `raise e` on an unclassified status
  | outOfFuel       -- modelling artifact: transient-retry fuel exhausted
  deriving DecidableEq

/-- `data.pop("lastUpdatedOn")` from the success branch of `get_feeds`:
removes the field from a dict, raising KeyError when the key is absent
and an attribute/type error when the value is not a dict. -/
def popLastUpdated : Json → Except Crash Json
  | .obj fields =>
    if fields.any (·.1 == "lastUpdatedOn") then
      .ok (.obj (fields.eraseP (·.1 == "lastUpdatedOn")))
    else
      .error .keyError
  | _ => .error .attrError

/-- The observable state threaded through a run: the working directory
(filename to document, insertion-ordered), the log of network calls
(the parameter dict passed to each `msf_get_data` invocation, in order),
and the log of `time.sleep` durations in seconds. -/
structure St where
  files : List (String × Json)
  calls : List (List (String × String))
  sleeps : List Nat

/-- Result of running a piece of the module: normal return with a value,
or an escaped exception; both carry the state reached. -/
inductive Res (α : Type) where
  | ok : α → St → Res α
  | crash : Crash → St → Res α

/-- `os.path.isfile` over the modelled working directory. -/
def hasFile (st : St) (fn : String) : Bool :=
  st.files.any (·.1 == fn)

/-- Content of a file, if present (`open(fn, "r")` + `json.load`). -/
def readFile (st : St) (fn : String) : Option Json :=
  (st.files.find? (·.1 == fn)).map (·.2)

/-- `open(fn, "w")` + `json.dump`: overwrite in place, or create. -/
def writeFile (st : St) (fn : String) (d : Json) : St :=
  if st.files.any (·.1 == fn) then
    { st with files := st.files.map (fun p => if p.1 == fn then (fn, d) else p) }
  else
    { st with files := st.files ++ [(fn, d)] }

/-- `os.remove` on a file known to exist: drop its entry. -/
def removeFile (st : St) (fn : String) : St :=
  { st with files := st.files.eraseP (·.1 == fn) }

/-- Record one network call with the parameters it was given. -/
def logCall (st : St) (params : List (String × String)) : St :=
  { st with calls := st.calls ++ [params] }

/-- Record one `time.sleep`. -/
def logSleep (st : St) (n : Nat) : St :=
  { st with sleeps := st.sleeps ++ [n] }

/-- `SLEEP_TIME = 10`, the backoff base delay in seconds. -/
def SLEEP_TIME : Nat := 10

/-- `get_filename(feed, season, additional_params)`: the artifact key.
A `None` or empty parameter mapping is the empty list (both are falsy in
the source and produce the same name). -/
def get_filename (feed season : String) (additional_params : List (String × String)) : String :=
  let base := "season." ++ season ++ "--feed." ++ feed
  let full := additional_params.foldl
    (fun acc kv =>
      if kv.1 ≠ "" ∧ kv.2 ≠ "" then acc ++ "--" ++ kv.1 ++ "." ++ kv.2
      else acc ++ "--" ++ kv.1 ++ kv.2)
    base
  full ++ ".json"

/-- One `dict[k] = v` step on an insertion-ordered dict: replace the value
in place when the key is present, append otherwise. -/
def dictInsert (l : List (String × String)) (k v : String) : List (String × String) :=
  if l.any (·.1 == k) then
    l.map (fun p => if p.1 == k then (k, v) else p)
  else
    l ++ [(k, v)]

/-- `BASE_PARAMS = {"format": "json", "league": "nfl", "force": True}`
(the boolean rendered as its textual form; no claim inspects it). -/
def BASE_PARAMS : List (String × String) :=
  [("format", "json"), ("league", "nfl"), ("force", "True")]

/-- The `params` dict as it stands when `msf_get_data(**params)` runs for
a given feed: base params, then `params["season"] = season`, then
`params.update(additional_params)`, then `params["feed"] = feed`. -/
def buildParams (season : String) (additional_params : List (String × String)) (feed : String) :
    List (String × String) :=
  dictInsert (additional_params.foldl (fun l kv => dictInsert l kv.1 kv.2)
    (dictInsert BASE_PARAMS "season" season)) "feed" feed

/-- One response of the remote fetch client: a document, or a raised
`Warning` carrying the status code recovered from its message text. -/
inductive FetchResult where
  | success : Json → FetchResult
  | warning : Nat → FetchResult

/-- An entry of the returned error list:
`{**params.copy(), "error": status}`. -/
structure ErrorRecord where
  params : List (String × String)
  error : Nat
  deriving DecidableEq

/-- The `while retry > 0` loop of `get_feeds` for one feed.  `remote` is
the fetch-client oracle, indexed by how many calls were made so far;
`handle400` is the malformed-request branch (it returns the value the
loop variable `retry` is left with); `retry` is the current attempt
number (at least 1 here); `dataV`/`statusV` are the function-scoped
locals `data` and `status`, `none` when not yet assigned.  Returns the
loop-exit values of (`retry`, `data`, `status`). -/
def fetchAttempts (remote : Nat → FetchResult) (handle400 : St → Res Int) :
    Nat → List (String × String) → Nat → Option Json → Option Nat → St →
    Res (Int × Option Json × Option Nat)
  | fuel, params, retry, dataV, statusV, st =>
    let st1 := logCall st params
    match remote st.calls.length with
    | .success doc =>
      match popLastUpdated doc with
      | .error c => .crash c st1
      | .ok d => .ok (0, some d, statusV) st1
    | .warning s =>
      if s = 429 ∨ s = 499 ∨ s = 502 ∨ s = 503 then
        let st2 := logSleep st1 (SLEEP_TIME * retry ^ 2)
        match fuel with
        | 0 => .crash .outOfFuel st2
        | f + 1 => fetchAttempts remote handle400 f params (retry + 1) dataV (some s) st2
      else if s = 400 then
        match handle400 st1 with
        | .crash c st2 => .crash c st2
        | .ok r st2 => .ok (r, dataV, some s) st2
      else
        .crash (.warningRaised s) st1

/-- The code after the retry loop for one feed:
`if retry == -1 or not data: errors.append(...) else: write file`.
Short-circuiting means `data` is only read when `retry != -1`, and
`status` only on the error branch; reading either unassigned raises.
Returns the error records this feed contributes. -/
def postFetch (json_file : String) (params : List (String × String)) (r : Int)
    (dataV : Option Json) (statusV : Option Nat) (st : St) : Res (List ErrorRecord) :=
  if r = -1 then
    match statusV with
    | none => .crash .nameError st
    | some s => .ok [⟨params, s⟩] st
  else
    match dataV with
    | none => .crash .nameError st
    | some d =>
      if d.truthy then .ok [] (writeFile st json_file d)
      else
        match statusV with
        | none => .crash .nameError st
        | some s => .ok [⟨params, s⟩] st

/-- The `for feed in feeds` loop of `get_feeds`.  `h400` builds the
malformed-request handler for a feed; `dataV`/`statusV` persist across
iterations because `data` and `status` are function-scoped. -/
def feedLoopGen (remote : Nat → FetchResult) (h400 : String → St → Res Int)
    (fuel : Nat) (season : String) (additional_params : List (String × String)) :
    List String → Option Json → Option Nat → List ErrorRecord → St → Res (List ErrorRecord)
  | [], _, _, errors, st => .ok errors st
  | feed :: rest, dataV, statusV, errors, st =>
    let json_file := get_filename feed season additional_params
    if hasFile st json_file then
      feedLoopGen remote h400 fuel season additional_params rest dataV statusV errors st
    else
      let params := buildParams season additional_params feed
      match fetchAttempts remote (h400 feed) fuel params 1 dataV statusV st with
      | .crash c st1 => .crash c st1
      | .ok (r, dataV1, statusV1) st1 =>
        match postFetch json_file params r dataV1 statusV1 st1 with
        | .crash c st2 => .crash c st2
        | .ok errs st2 =>
          feedLoopGen remote h400 fuel season additional_params rest dataV1 statusV1
            (errors ++ errs) st2

/-- `get_feeds(feeds, season, additional_params)` with
`additional_params_to_try=None`: the malformed-request branch simply
sets `retry = -1`.  This is the form of the recursive call in the
400-fallback. -/
def getFeedsNoVar (remote : Nat → FetchResult) (fuel : Nat) (feeds : List String)
    (season : String) (additional_params : List (String × String)) (st : St) :
    Res (List ErrorRecord) :=
  feedLoopGen remote (fun _ s => .ok (-1) s) fuel season additional_params
    feeds none none [] st

/-- The `for try_params in additional_params_to_try` loop: recursively
fetch the feed under each variant's parameters (and the variant's key);
an empty returned error list means success (`retry = 0`, stop), a
non-empty one means move on (`retry = -1`). -/
def variantLoop (remote : Nat → FetchResult) (fuel : Nat) (feed season : String) :
    List (List (String × String)) → St → Res Int
  | [], st => .ok (-1) st
  | v :: rest, st =>
    match getFeedsNoVar remote fuel [feed] season v st with
    | .crash c st1 => .crash c st1
    | .ok errs st1 =>
      if errs.isEmpty then .ok 0 st1
      else variantLoop remote fuel feed season rest st1

/-- `get_feeds(feeds, season, additional_params, additional_params_to_try)`:
returns the accumulated error records.  An absent (`None`) parameter
mapping or variant list is the empty list, matching the source's
truthiness tests. -/
def get_feeds (remote : Nat → FetchResult) (fuel : Nat) (feeds : List String)
    (season : String) (additional_params : List (String × String))
    (additional_params_to_try : List (List (String × String))) (st : St) :
    Res (List ErrorRecord) :=
  feedLoopGen remote
    (fun feed s =>
      if additional_params_to_try.isEmpty then .ok (-1) s
      else variantLoop remote fuel feed season additional_params_to_try s)
    fuel season additional_params feeds none none [] st

/-- Zero-pad a number to at least two digits (`strftime` field). -/
def pad2 (n : Nat) : String :=
  if n < 10 then "0" ++ toString n else toString n

/-- Zero-pad a year to four digits (`strftime %Y`). -/
def pad4 (n : Nat) : String :=
  if n < 10 then "000" ++ toString n
  else if n < 100 then "00" ++ toString n
  else if n < 1000 then "0" ++ toString n
  else toString n

/-- Civil date from a day count (days since 1970-01-01, non-negative),
by the standard Gregorian era decomposition. -/
def civilFromDays (days : Nat) : Nat × Nat × Nat :=
  let z := days + 719468
  let era := z / 146097
  let doe := z % 146097
  let yoe := (doe - doe / 1460 + doe / 36524 - doe / 146096) / 365
  let y := yoe + era * 400
  let doy := doe - (365 * yoe + yoe / 4 - yoe / 100)
  let mp := (5 * doy + 2) / 153
  let d := doy - (153 * mp + 2) / 5 + 1
  let m := if mp < 10 then mp + 3 else mp - 9
  (if m ≤ 2 then y + 1 else y, m, d)

/-- `strftime("%Y%m%d")` of a civil date given as a day count. -/
def dateStr (days : Nat) : String :=
  let c := civilFromDays days
  pad4 c.1 ++ pad2 c.2.1 ++ pad2 c.2.2

/-- One entry of the game list, as `get_game_ids` consumes it.  The
external date machinery (`dateutil.parser.isoparse` of
`game["schedule"]["startTime"]` followed by `astimezone(US/Eastern)`)
is abstracted to the resulting Eastern civil date, kept as a day count;
`timedelta(days=1)` arithmetic on the localized datetime moves this
civil date by exactly one. -/
structure Game where
  startDay : Nat
  away : String
  home : String

/-- `get_game_ids(game)`: canonical, plus-one-day and minus-one-day
game identifiers `{date}-{away}-{home}`. -/
def get_game_ids (game : Game) : String × String × String :=
  let game_date := dateStr game.startDay
  let plusone_game_date := dateStr (game.startDay + 1)
  let minusone_game_date := dateStr (game.startDay - 1)
  (game_date ++ "-" ++ game.away ++ "-" ++ game.home,
   plusone_game_date ++ "-" ++ game.away ++ "-" ++ game.home,
   minusone_game_date ++ "-" ++ game.away ++ "-" ++ game.home)

/-- `get_game_file(feed, season, game)`: probe the store for the
canonical id's file, then the plus-one id's, and fall back to the
minus-one id's name whether or not it exists. -/
def get_game_file (feed season : String) (game : Game) (st : St) : String :=
  let ids := get_game_ids game
  let game_file := get_filename feed season [("game", ids.1)]
  let plusone_game_file := get_filename feed season [("game", ids.2.1)]
  let minusone_game_file := get_filename feed season [("game", ids.2.2)]
  if hasFile st game_file then game_file
  else if hasFile st plusone_game_file then plusone_game_file
  else minusone_game_file

/-- Substring test (`pat in s` on Python strings), over char lists. -/
def subOfChars (pat : List Char) : List Char → Bool
  | [] => pat.isEmpty
  | c :: rest => (startsChars pat (c :: rest)) || subOfChars pat rest
where
  startsChars : List Char → List Char → Bool
    | [], _ => true
    | _ :: _, [] => false
    | p :: ps, d :: ds => p == d && startsChars ps ds

/-- `pat in s` for strings. -/
def strContains (s pat : String) : Bool :=
  subOfChars pat.data s.data

/-- `os.remove` each single-character name in turn, crashing with
FileNotFoundError on the first absent one — the behaviour the
`to_delete += filename` slip produces (it extends the list with the
filename's characters). -/
def removeEach : List Char → St → Res Unit
  | [], st => .ok () st
  | c :: rest, st =>
    let fn := String.singleton c
    if hasFile st fn then removeEach rest (removeFile st fn)
    else .crash .fileNotFound st

/-- `delete_weekly_feeds_for_season(season)`: scan the directory for
names containing `--week.` and `season.{season}`, then `os.remove`
each element of the accumulated list — which, because of
`week_feeds_to_delete += filename`, holds single characters. -/
def delete_weekly_feeds_for_season (season : String) (st : St) : Res Unit :=
  let matched := (st.files.map (·.1)).filter
    (fun fn => strContains fn "--week." && strContains fn ("season." ++ season))
  removeEach (matched.foldl (fun acc fn => acc ++ fn.data) []) st

/-- `delete_games_for_season_and_feed(season, feed)`: same shape, for
names containing `--game.`, `season.{season}` and `feed.{feed}`. -/
def delete_games_for_season_and_feed (season feed : String) (st : St) : Res Unit :=
  let matched := (st.files.map (·.1)).filter
    (fun fn => strContains fn "--game." && strContains fn ("season." ++ season)
      && strContains fn ("feed." ++ feed))
  removeEach (matched.foldl (fun acc fn => acc ++ fn.data) []) st

/-- The per-game fetch loop of the assemblers: for each game, fetch the
feed under the canonical id with the plus-one and minus-one ids as
alternate parameters, accumulating the returned error records. -/
def perGameFetch (remote : Nat → FetchResult) (fuel : Nat) (feed season : String) :
    List Game → List ErrorRecord → St → Res (List ErrorRecord)
  | [], errors, st => .ok errors st
  | game :: rest, errors, st =>
    let ids := get_game_ids game
    match get_feeds remote fuel [feed] season [("game", ids.1)]
        [[("game", ids.2.1)], [("game", ids.2.2)]] st with
    | .crash c st1 => .crash c st1
    | .ok errs st1 => perGameFetch remote fuel feed season rest (errors ++ errs) st1

/-- The assembly read loop: `open(get_game_file(...))` + `json.load` for
each game in list order, FileNotFoundError when the probed name is
absent (the minus-one fallback of last resort). -/
def buildDataList (feed season : String) :
    List Game → List Json → St → Res (List Json)
  | [], acc, st => .ok acc st
  | game :: rest, acc, st =>
    match readFile st (get_game_file feed season game st) with
    | none => .crash .fileNotFound st
    | some d => buildDataList feed season rest (acc ++ [d]) st

/-- JSON encoding of the accumulated error list, as `json.dump` writes
it to the error artifact. -/
def errorsToJson (errors : List ErrorRecord) : Json :=
  .arr (errors.map (fun e =>
    .obj (e.params.map (fun kv => (kv.1, .str kv.2)) ++ [("error", .num e.error)])))

/-- The error branch of both assembler blocks: remove any prior error
artifact for the unit and write the accumulated error records. -/
def errorDump (st1 : St) (error_file : String) (errors : List ErrorRecord) : St :=
  writeFile (if hasFile st1 error_file then removeFile st1 error_file else st1)
    error_file (errorsToJson errors)

/-- The body of `for feed in BY_GAME_FEEDS` inside `get_full_season_data`
(lines 182-229) for one (feed, season) unit, given the game list already
decoded from the seasonal games artifact: skip when the composite
exists; otherwise fetch per game; with no errors, assemble the composite
in game-list order, write it, and run both cleanup deleters; with
errors, rewrite the dedicated error artifact and stop. -/
def get_full_season_data_feed_block (remote : Nat → FetchResult) (fuel : Nat)
    (feed season : String) (games : List Game) (st : St) : Res Unit :=
  let feed_file := get_filename feed season []
  if hasFile st feed_file then .ok () st
  else
    match perGameFetch remote fuel feed season games [] st with
    | .crash c st1 => .crash c st1
    | .ok errors st1 =>
      if errors.isEmpty then
        match buildDataList feed season games [] st1 with
        | .crash c st2 => .crash c st2
        | .ok data_list st2 =>
          let st3 := if hasFile st2 feed_file then removeFile st2 feed_file else st2
          let st4 := writeFile st3 feed_file (.arr data_list)
          match delete_games_for_season_and_feed season feed st4 with
          | .crash c st5 => .crash c st5
          | .ok _ st5 => delete_weekly_feeds_for_season season st5
      else
        let error_file := get_filename feed season [("errors", "")]
        let st2 := if hasFile st1 error_file then removeFile st1 error_file else st1
        .ok () (writeFile st2 error_file (errorsToJson errors))

/-- The body of `for feed in BY_GAME_FEEDS` inside `get_data_for_week`
(lines 247-295) for one (feed, season, week) unit: same shape as the
season-level block, except the composite and error artifacts carry the
`week` parameter and no cleanup deletion happens at all. -/
def get_data_for_week_feed_block (remote : Nat → FetchResult) (fuel : Nat)
    (feed season week : String) (games : List Game) (st : St) : Res Unit :=
  let feed_file := get_filename feed season [("week", week)]
  if hasFile st feed_file then .ok () st
  else
    match perGameFetch remote fuel feed season games [] st with
    | .crash c st1 => .crash c st1
    | .ok errors st1 =>
      if errors.isEmpty then
        match buildDataList feed season games [] st1 with
        | .crash c st2 => .crash c st2
        | .ok data_list st2 =>
          let st3 := if hasFile st2 feed_file then removeFile st2 feed_file else st2
          .ok () (writeFile st3 feed_file (.arr data_list))
      else
        let error_file := get_filename feed season [("week", week), ("errors", "")]
        let st2 := if hasFile st1 error_file then removeFile st1 error_file else st1
        .ok () (writeFile st2 error_file (errorsToJson errors))

/-! ### Analysis of the artifact naming scheme -/

/-- The contribution of one parameter pair to the artifact key, as the
spec describes it: a separating dot between key and value exactly when
both are non-empty. -/
def paramSegment (kv : String × String) : String :=
  if kv.1 ≠ "" ∧ kv.2 ≠ "" then "--" ++ kv.1 ++ "." ++ kv.2 else "--" ++ kv.1 ++ kv.2

/-- Concatenation of a list of strings. -/
def catStrings : List String → String
  | [] => ""
  | s :: rest => s ++ catStrings rest

/-- The character stream of the parameter segments. -/
def segChars : List (String × String) → List Char
  | [] => []
  | kv :: rest => (paramSegment kv).data ++ segChars rest

/-- A parameter string with no dash and no dot in it. -/
def noDashDot (s : String) : Prop := ∀ c ∈ s.data, c ≠ '-' ∧ c ≠ '.'

/-- A plain parameter pair: both components non-empty and free of dashes
and dots. -/
def plainPair (kv : String × String) : Prop :=
  kv.1 ≠ "" ∧ kv.2 ≠ "" ∧ noDashDot kv.1 ∧ noDashDot kv.2

instance (s : String) : Decidable (noDashDot s) := by
  unfold noDashDot; infer_instance

instance (kv : String × String) : Decidable (plainPair kv) := by
  unfold plainPair; infer_instance



/-! ### Concrete scenario data for witnesses and counterexamples -/

/-- A well-formed remote document with the timestamp field present. -/
def sampleDoc : Json := .obj [("lastUpdatedOn", .str "t"), ("x", .num 1)]

/-- `sampleDoc` with the timestamp field stripped. -/
def sampleStripped : Json := .obj [("x", .num 1)]

/-- A remote that always succeeds with `sampleDoc`. -/
def successRemote : Nat → FetchResult := fun _ => .success sampleDoc

/-- A remote that always answers with a malformed-request status. -/
def badRemote400 : Nat → FetchResult := fun _ => .warning 400

/-- A remote that succeeds with a completely empty document. -/
def emptyDocRemote : Nat → FetchResult := fun _ => .success (.obj [])

/-- A remote that succeeds with a document holding only the timestamp. -/
def onlyTimestampRemote : Nat → FetchResult :=
  fun _ => .success (.obj [("lastUpdatedOn", .str "t")])

/-- A remote that succeeds with non-empty content lacking the timestamp. -/
def noTimestampRemote : Nat → FetchResult := fun _ => .success (.obj [("x", .num 1)])

/-- A remote answering 400 to the first call and success afterwards. -/
def c3remote : Nat → FetchResult := fun n => if n = 0 then .warning 400 else .success sampleDoc

/-- A remote answering 400 to the first two calls and success afterwards. -/
def c3remoteTwo : Nat → FetchResult :=
  fun n => if n ≤ 1 then .warning 400 else .success sampleDoc

/-- A remote answering 429 to the first two calls and success afterwards. -/
def c7remote : Nat → FetchResult := fun n => if n < 2 then .warning 429 else .success sampleDoc

/-- An empty working directory with empty logs. -/
def emptyStore : St := ⟨[], [], []⟩

/-- A sample game: starts 2014-10-05 US/Eastern (day 16348 since epoch). -/
def sampleGame : Game := ⟨16348, "DAL", "HOU"⟩


theorem foldl_paramSegment (ps : List (String × String)) (acc : String) :
    ps.foldl
      (fun acc kv =>
        if kv.1 ≠ "" ∧ kv.2 ≠ "" then acc ++ "--" ++ kv.1 ++ "." ++ kv.2
        else acc ++ "--" ++ kv.1 ++ kv.2)
      acc = acc ++ catStrings (ps.map paramSegment) := by
  induction ps generalizing acc with
  | nil => simp [catStrings]
  | cons kv rest ih =>
    simp only [List.foldl_cons, List.map_cons, catStrings, ih, paramSegment]
    split <;> simp [String.append_assoc]

/-- The artifact key decomposes into the header, the parameter segments
in call order, and the extension. -/
theorem get_filename_eq (feed season : String) (ps : List (String × String)) :
    get_filename feed season ps
      = "season." ++ season ++ "--feed." ++ feed ++ catStrings (ps.map paramSegment)
        ++ ".json" := by
  simp only [get_filename]
  rw [foldl_paramSegment]

theorem catStrings_map_data (ps : List (String × String)) :
    (catStrings (ps.map paramSegment)).data = segChars ps := by
  induction ps with
  | nil => rfl
  | cons kv rest ih => simp [catStrings, segChars, String.data_append, ih]

theorem paramSegment_data_plain (kv : String × String) (h : plainPair kv) :
    (paramSegment kv).data = '-' :: '-' :: (kv.1.data ++ '.' :: kv.2.data) := by
  unfold paramSegment
  rw [if_pos ⟨h.1, h.2.1⟩]
  simp only [String.data_append, List.append_assoc]
  rfl

theorem paramSegment_data_head (kv : String × String) :
    ∃ t, (paramSegment kv).data = '-' :: '-' :: t := by
  unfold paramSegment
  split
  · exact ⟨kv.1.data ++ '.' :: kv.2.data, by
      simp only [String.data_append, List.append_assoc]; rfl⟩
  · exact ⟨kv.1.data ++ kv.2.data, by
      simp only [String.data_append, List.append_assoc]; rfl⟩

theorem segChars_shape (ps : List (String × String)) :
    segChars ps = [] ∨ ∃ t, segChars ps = '-' :: t := by
  cases ps with
  | nil => exact Or.inl rfl
  | cons kv rest =>
    obtain ⟨t, ht⟩ := paramSegment_data_head kv
    exact Or.inr ⟨'-' :: (t ++ segChars rest), by simp [segChars, ht]⟩

theorem dot_split :
    ∀ (a b t u : List Char), (∀ c ∈ a, c ≠ '.') → (∀ c ∈ b, c ≠ '.') →
      a ++ '.' :: t = b ++ '.' :: u → a = b ∧ t = u := by
  intro a
  induction a with
  | nil =>
    intro b t u _ hb h
    cases b with
    | nil => simpa using h
    | cons d bs =>
      simp only [List.nil_append, List.cons_append, List.cons.injEq] at h
      exact absurd h.1.symm (hb d (by simp))
  | cons c as ih =>
    intro b t u ha hb h
    cases b with
    | nil =>
      simp only [List.cons_append, List.nil_append, List.cons.injEq] at h
      exact absurd h.1 (ha c (by simp))
    | cons d bs =>
      simp only [List.cons_append, List.cons.injEq] at h
      obtain ⟨h1, h2⟩ := h
      obtain ⟨h3, h4⟩ := ih bs t u (fun x hx => ha x (by simp [hx]))
        (fun x hx => hb x (by simp [hx])) h2
      exact ⟨by rw [h1, h3], h4⟩

theorem dash_bound :
    ∀ (a b r s : List Char), (∀ c ∈ a, c ≠ '-') → (∀ c ∈ b, c ≠ '-') →
      (r = [] ∨ ∃ rt, r = '-' :: rt) → (s = [] ∨ ∃ st, s = '-' :: st) →
      a ++ r = b ++ s → a = b ∧ r = s := by
  intro a
  induction a with
  | nil =>
    intro b r s _ hb hr _ h
    cases b with
    | nil => simpa using h
    | cons d bs =>
      exfalso
      simp only [List.nil_append, List.cons_append] at h
      rcases hr with rfl | ⟨rt, rfl⟩
      · exact List.cons_ne_nil d (bs ++ s) h.symm
      · exact hb d (by simp) ((List.cons.inj h).1.symm)
  | cons c as ih =>
    intro b r s ha hb hr hs h
    cases b with
    | nil =>
      exfalso
      simp only [List.cons_append, List.nil_append] at h
      rcases hs with rfl | ⟨st, rfl⟩
      · exact List.cons_ne_nil c (as ++ r) h
      · exact ha c (by simp) ((List.cons.inj h).1)
    | cons d bs =>
      simp only [List.cons_append, List.cons.injEq] at h
      obtain ⟨h1, h2⟩ := h
      obtain ⟨h3, h4⟩ := ih bs r s (fun x hx => ha x (by simp [hx]))
        (fun x hx => hb x (by simp [hx])) hr hs h2
      exact ⟨by rw [h1, h3], h4⟩

theorem segChars_inj :
    ∀ ps qs, (∀ kv ∈ ps, plainPair kv) → (∀ kv ∈ qs, plainPair kv) →
      segChars ps = segChars qs → ps = qs := by
  intro ps
  induction ps with
  | nil =>
    intro qs _ hq h
    cases qs with
    | nil => rfl
    | cons kv r =>
      exfalso
      obtain ⟨t, ht⟩ := paramSegment_data_head kv
      simp [segChars, ht] at h
  | cons kv r ih =>
    intro qs hp hq h
    cases qs with
    | nil =>
      exfalso
      obtain ⟨t, ht⟩ := paramSegment_data_head kv
      simp [segChars, ht] at h
    | cons kv2 r2 =>
      have hkv := hp kv (by simp)
      have hkv2 := hq kv2 (by simp)
      rw [segChars, segChars, paramSegment_data_plain kv hkv,
        paramSegment_data_plain kv2 hkv2] at h
      simp only [List.cons_append, List.cons.injEq, List.append_assoc,
        List.cons_append] at h
      obtain ⟨-, -, h⟩ := h
      obtain ⟨hk, hrest⟩ := dot_split _ _ _ _
        (fun c hc => (hkv.2.2.1 c hc).2) (fun c hc => (hkv2.2.2.1 c hc).2) h
      obtain ⟨hv, hseg⟩ := dash_bound _ _ _ _
        (fun c hc => (hkv.2.2.2 c hc).1) (fun c hc => (hkv2.2.2.2 c hc).1)
        (segChars_shape r) (segChars_shape r2) hrest
      have : kv = kv2 := by
        obtain ⟨k1, v1⟩ := kv
        obtain ⟨k2, v2⟩ := kv2
        simp only [Prod.mk.injEq]
        exact ⟨String.ext hk, String.ext hv⟩
      rw [this, ih r2 (fun x hx => hp x (by simp [hx]))
        (fun x hx => hq x (by simp [hx])) hseg]

/-- Equal artifact keys for the same feed and season force equal
parameter-segment character streams. -/
theorem get_filename_segChars_eq (feed season : String) (ps qs : List (String × String))
    (h : get_filename feed season ps = get_filename feed season qs) :
    segChars ps = segChars qs := by
  rw [get_filename_eq, get_filename_eq] at h
  have hd := congrArg String.data h
  simp only [String.data_append, List.append_assoc] at hd
  have hd2 := List.append_cancel_left hd
  have hd3 := List.append_cancel_left hd2
  have hd4 := List.append_cancel_left hd3
  have hd5 := List.append_cancel_left hd4
  have hd6 := List.append_cancel_right hd5
  rw [catStrings_map_data, catStrings_map_data] at hd6
  exact hd6

/-- On plain parameter lists the artifact key is injective: in
particular two different orderings of the same plain parameters always
yield different keys. -/
theorem get_filename_inj_plain (feed season : String) (ps qs : List (String × String))
    (hp : ∀ kv ∈ ps, plainPair kv) (hq : ∀ kv ∈ qs, plainPair kv)
    (h : get_filename feed season ps = get_filename feed season qs) : ps = qs :=
  segChars_inj ps qs hp hq (get_filename_segChars_eq feed season ps qs h)

/-- The segment stream of an appended parameter list. -/
theorem segChars_append (ps qs : List (String × String)) :
    segChars (ps ++ qs) = segChars ps ++ segChars qs := by
  induction ps with
  | nil => rfl
  | cons kv rest ih => simp [segChars, ih]

/-- A unit's composite artifact name never coincides with its error
artifact name (the latter appends the dotless `--errors` segment). -/
theorem get_filename_ne_errors (feed season : String) (ps : List (String × String)) :
    get_filename feed season ps ≠ get_filename feed season (ps ++ [("errors", "")]) := by
  intro h
  have hseg := get_filename_segChars_eq feed season _ _ h
  have hlen := congrArg List.length hseg
  rw [segChars_append, List.length_append] at hlen
  have h8 : (segChars [("errors", "")]).length = 8 := by decide
  rw [h8] at hlen
  omega

/-! ### Store lemmas -/

theorem writeFile_calls (st : St) (fn : String) (d : Json) :
    (writeFile st fn d).calls = st.calls := by
  unfold writeFile; split <;> rfl

theorem writeFile_sleeps (st : St) (fn : String) (d : Json) :
    (writeFile st fn d).sleeps = st.sleeps := by
  unfold writeFile; split <;> rfl

theorem setList_any_self (l : List (String × Json)) (fn : String) (d : Json)
    (h : l.any (·.1 == fn) = true) :
    (l.map (fun p => if p.1 == fn then (fn, d) else p)).any (·.1 == fn) = true := by
  induction l with
  | nil => simp at h
  | cons p rest ih =>
    rw [List.map_cons, List.any_cons]
    by_cases hp : p.1 = fn
    · rw [if_pos (by simpa using hp)]
      simp
    · rw [if_neg (by simpa using hp)]
      rw [List.any_cons, Bool.or_eq_true] at h
      rcases h with h | h
      · exact absurd (by simpa using h) hp
      · rw [Bool.or_eq_true]
        exact Or.inr (ih h)

theorem hasFile_writeFile_self (st : St) (fn : String) (d : Json) :
    hasFile (writeFile st fn d) fn = true := by
  unfold hasFile writeFile
  split
  case isTrue h => exact setList_any_self st.files fn d h
  case isFalse h => simp

theorem find?_setList_self (l : List (String × Json)) (fn : String) (d : Json)
    (h : l.any (·.1 == fn) = true) :
    (l.map (fun p => if p.1 == fn then (fn, d) else p)).find? (·.1 == fn) = some (fn, d) := by
  induction l with
  | nil => simp at h
  | cons p rest ih =>
    rw [List.map_cons]
    by_cases hp : p.1 = fn
    · rw [if_pos (by simpa using hp)]
      exact List.find?_cons_of_pos _ (by simp)
    · rw [if_neg (by simpa using hp)]
      rw [List.any_cons, Bool.or_eq_true] at h
      rcases h with h | h
      · exact absurd (by simpa using h) hp
      · rw [List.find?_cons_of_neg _ (by simpa using hp)]
        exact ih h

theorem readFile_writeFile_self (st : St) (fn : String) (d : Json) :
    readFile (writeFile st fn d) fn = some d := by
  unfold readFile writeFile
  split
  case isTrue h => rw [find?_setList_self st.files fn d h]; rfl
  case isFalse h =>
    have hnone : st.files.find? (·.1 == fn) = none :=
      List.find?_eq_none.2 (fun x hx hpx => h (List.any_eq_true.2 ⟨x, hx, hpx⟩))
    rw [List.find?_append, hnone, List.find?_cons_of_pos _ (by simp)]
    rfl

theorem find?_setList_ne (l : List (String × Json)) (fn fn' : String) (d : Json)
    (h : fn' ≠ fn) :
    (l.map (fun p => if p.1 == fn then (fn, d) else p)).find? (·.1 == fn')
      = l.find? (·.1 == fn') := by
  induction l with
  | nil => rfl
  | cons p rest ih =>
    rw [List.map_cons]
    by_cases hp : p.1 = fn
    · rw [if_pos (by simpa using hp)]
      simp only [List.find?_cons]
      rw [show ((fn, d).1 == fn') = false by simpa using fun hh => h hh.symm,
        show (p.1 == fn') = false by simpa using fun hh : p.1 = fn' => h (hh ▸ hp)]
      exact ih
    · rw [if_neg (by simpa using hp)]
      simp only [List.find?_cons]
      by_cases hq : p.1 = fn'
      · rw [show (p.1 == fn') = true by simpa using hq]
      · rw [show (p.1 == fn') = false by simpa using hq]
        exact ih

theorem readFile_writeFile_ne (st : St) (fn fn' : String) (d : Json) (h : fn' ≠ fn) :
    readFile (writeFile st fn d) fn' = readFile st fn' := by
  unfold readFile writeFile
  split
  case isTrue _ => rw [find?_setList_ne st.files fn fn' d h]
  case isFalse _ =>
    have h2 : List.find? (fun p => p.1 == fn') [(fn, d)] = none := by
      rw [List.find?_cons_of_neg _ (by simpa using fun hh => h hh.symm)]
      rfl
    rw [List.find?_append, h2]
    cases st.files.find? (·.1 == fn') <;> rfl

theorem find?_eraseP_ne (l : List (String × Json)) (fn fn' : String) (h : fn' ≠ fn) :
    (l.eraseP (·.1 == fn)).find? (·.1 == fn') = l.find? (·.1 == fn') := by
  induction l with
  | nil => rfl
  | cons p rest ih =>
    simp only [List.eraseP_cons]
    by_cases hp : p.1 = fn
    · rw [show (p.1 == fn) = true by simpa using hp]
      simp only [cond_true, List.find?_cons]
      rw [show (p.1 == fn') = false by simpa using fun hh : p.1 = fn' => h (hh ▸ hp)]
    · rw [show (p.1 == fn) = false by simpa using hp]
      simp only [cond_false, List.find?_cons]
      by_cases hq : p.1 = fn'
      · rw [show (p.1 == fn') = true by simpa using hq]
      · rw [show (p.1 == fn') = false by simpa using hq]
        exact ih

theorem readFile_removeFile_ne (st : St) (fn fn' : String) (h : fn' ≠ fn) :
    readFile (removeFile st fn) fn' = readFile st fn' := by
  unfold readFile removeFile
  exact congrArg _ (find?_eraseP_ne st.files fn fn' h)

theorem writeFile_not_present (st : St) (fn : String) (d : Json)
    (h : hasFile st fn = false) :
    writeFile st fn d = { st with files := st.files ++ [(fn, d)] } := by
  unfold writeFile
  rw [if_neg (by unfold hasFile at h; simp [h])]

/-! ### Step lemmas for the fetch machinery -/

theorem fetchAttempts_success {remote : Nat → FetchResult} {handle400 : St → Res Int}
    {fuel : Nat} {params : List (String × String)} {retry : Nat}
    {dataV : Option Json} {statusV : Option Nat} {st : St} {doc d : Json}
    (hr : remote st.calls.length = .success doc) (hp : popLastUpdated doc = .ok d) :
    fetchAttempts remote handle400 fuel params retry dataV statusV st
      = .ok (0, some d, statusV) (logCall st params) := by
  rw [fetchAttempts, hr]
  simp only [hp]

theorem fetchAttempts_crash_pop {remote : Nat → FetchResult} {handle400 : St → Res Int}
    {fuel : Nat} {params : List (String × String)} {retry : Nat}
    {dataV : Option Json} {statusV : Option Nat} {st : St} {doc : Json} {c : Crash}
    (hr : remote st.calls.length = .success doc) (hp : popLastUpdated doc = .error c) :
    fetchAttempts remote handle400 fuel params retry dataV statusV st
      = .crash c (logCall st params) := by
  rw [fetchAttempts, hr]
  simp only [hp]

theorem fetchAttempts_transient {remote : Nat → FetchResult} {handle400 : St → Res Int}
    {fuel : Nat} {params : List (String × String)} {retry : Nat}
    {dataV : Option Json} {statusV : Option Nat} {st : St} {s : Nat}
    (hr : remote st.calls.length = .warning s)
    (hs : s = 429 ∨ s = 499 ∨ s = 502 ∨ s = 503) :
    fetchAttempts remote handle400 (fuel + 1) params retry dataV statusV st
      = fetchAttempts remote handle400 fuel params (retry + 1) dataV (some s)
          (logSleep (logCall st params) (SLEEP_TIME * retry ^ 2)) := by
  rw [fetchAttempts, hr]
  dsimp only
  rw [if_pos hs]

theorem fetchAttempts_400 {remote : Nat → FetchResult} {handle400 : St → Res Int}
    {fuel : Nat} {params : List (String × String)} {retry : Nat}
    {dataV : Option Json} {statusV : Option Nat} {st : St}
    (hr : remote st.calls.length = .warning 400) :
    fetchAttempts remote handle400 fuel params retry dataV statusV st
      = match handle400 (logCall st params) with
        | .crash c st2 => .crash c st2
        | .ok r st2 => .ok (r, dataV, some 400) st2 := by
  rw [fetchAttempts, hr]
  dsimp only
  rw [if_neg (by decide), if_pos rfl]

theorem fetchAttempts_fatal {remote : Nat → FetchResult} {handle400 : St → Res Int}
    {fuel : Nat} {params : List (String × String)} {retry : Nat}
    {dataV : Option Json} {statusV : Option Nat} {st : St} {s : Nat}
    (hr : remote st.calls.length = .warning s)
    (h1 : ¬(s = 429 ∨ s = 499 ∨ s = 502 ∨ s = 503)) (h2 : s ≠ 400) :
    fetchAttempts remote handle400 fuel params retry dataV statusV st
      = .crash (.warningRaised s) (logCall st params) := by
  rw [fetchAttempts, hr]
  dsimp only
  rw [if_neg h1, if_neg h2]

theorem feedLoopGen_nil (remote : Nat → FetchResult) (h400 : String → St → Res Int)
    (fuel : Nat) (season : String) (additional : List (String × String))
    (dataV : Option Json) (statusV : Option Nat) (errors : List ErrorRecord) (st : St) :
    feedLoopGen remote h400 fuel season additional [] dataV statusV errors st
      = .ok errors st := rfl

theorem feedLoopGen_skip {remote : Nat → FetchResult} {h400 : String → St → Res Int}
    {fuel : Nat} {season : String} {additional : List (String × String)}
    {feed : String} {rest : List String}
    {dataV : Option Json} {statusV : Option Nat} {errors : List ErrorRecord} {st : St}
    (h : hasFile st (get_filename feed season additional) = true) :
    feedLoopGen remote h400 fuel season additional (feed :: rest) dataV statusV errors st
      = feedLoopGen remote h400 fuel season additional rest dataV statusV errors st := by
  rw [feedLoopGen, if_pos h]

theorem feedLoopGen_fetch {remote : Nat → FetchResult} {h400 : String → St → Res Int}
    {fuel : Nat} {season : String} {additional : List (String × String)}
    {feed : String} {rest : List String}
    {dataV : Option Json} {statusV : Option Nat} {errors : List ErrorRecord} {st : St}
    (h : hasFile st (get_filename feed season additional) = false) :
    feedLoopGen remote h400 fuel season additional (feed :: rest) dataV statusV errors st
      = match fetchAttempts remote (h400 feed) fuel (buildParams season additional feed)
          1 dataV statusV st with
        | .crash c st1 => .crash c st1
        | .ok (r, dataV1, statusV1) st1 =>
          match postFetch (get_filename feed season additional)
              (buildParams season additional feed) r dataV1 statusV1 st1 with
          | .crash c st2 => .crash c st2
          | .ok errs st2 =>
            feedLoopGen remote h400 fuel season additional rest dataV1 statusV1
              (errors ++ errs) st2 := by
  rw [feedLoopGen, if_neg (by simp [h])]

theorem postFetch_write {json_file : String} {params : List (String × String)}
    {dataV : Json} {statusV : Option Nat} {st : St} (ht : dataV.truthy = true) :
    postFetch json_file params 0 (some dataV) statusV st
      = .ok [] (writeFile st json_file dataV) := by
  unfold postFetch
  rw [if_neg (by decide)]
  simp [ht]

theorem postFetch_err (json_file : String) (params : List (String × String))
    (dataV : Option Json) (s : Nat) (st : St) :
    postFetch json_file params (-1) dataV (some s) st = .ok [⟨params, s⟩] st := by
  unfold postFetch
  rw [if_pos rfl]

theorem postFetch_unbound_data (json_file : String) (params : List (String × String))
    (statusV : Option Nat) (st : St) :
    postFetch json_file params 0 none statusV st = .crash .nameError st := by
  unfold postFetch
  rw [if_neg (by decide)]


/-- The probing conditional of `get_game_file`, characterised as the
first name in the probe list that exists in the store, with the last
name as the fallback default. -/
theorem probe_first_existing (st : St) (f1 f2 f3 : String) :
    (if hasFile st f1 then f1 else if hasFile st f2 then f2 else f3)
      = ([f1, f2, f3].find? (fun fn => hasFile st fn)).getD f3 := by
  cases h1 : hasFile st f1 <;> cases h2 : hasFile st f2 <;> cases h3 : hasFile st f3 <;>
    simp [List.find?_cons, h1, h2, h3]

/-- Running the retry loop against `M` consecutive transient responses
followed by a success: every attempt logs its call, the `j`-th transient
(counting from 0, at attempt number `k + j`) sleeps
`SLEEP_TIME * (k + j) ^ 2` seconds, and the loop exits with the stripped
document. -/
theorem fetchAttempts_transient_run (remote : Nat → FetchResult) (handle400 : St → Res Int)
    (params : List (String × String)) (doc d : Json) :
    ∀ (M fuel k : Nat) (dataV : Option Json) (statusV : Option Nat) (st : St),
      (∀ i, i < M → ∃ s, remote (st.calls.length + i) = .warning s
          ∧ (s = 429 ∨ s = 499 ∨ s = 502 ∨ s = 503)) →
      remote (st.calls.length + M) = .success doc →
      popLastUpdated doc = .ok d →
      M ≤ fuel →
      ∃ sv, fetchAttempts remote handle400 fuel params k dataV statusV st
        = .ok (0, some d, sv)
            ⟨st.files, st.calls ++ List.replicate (M + 1) params,
             st.sleeps ++ (List.range M).map (fun i => SLEEP_TIME * (k + i) ^ 2)⟩ := by
  intro M
  induction M with
  | zero =>
    intro fuel k dataV statusV st _ hsucc hpop _
    refine ⟨statusV, ?_⟩
    rw [fetchAttempts_success (by simpa using hsucc) hpop]
    simp [logCall]
  | succ M ih =>
    intro fuel k dataV statusV st htr hsucc hpop hfuel
    obtain ⟨s, hs, hsc⟩ := htr 0 (Nat.succ_pos M)
    cases fuel with
    | zero => omega
    | succ f =>
      rw [fetchAttempts_transient (by simpa using hs) hsc]
      have hlen : (logSleep (logCall st params) (SLEEP_TIME * k ^ 2)).calls.length
          = st.calls.length + 1 := by simp [logSleep, logCall]
      obtain ⟨sv, hrun⟩ := ih f (k + 1) dataV (some s)
        (logSleep (logCall st params) (SLEEP_TIME * k ^ 2))
        (fun i hi => by
          rw [hlen, show st.calls.length + 1 + i = st.calls.length + (i + 1) from by omega]
          exact htr (i + 1) (by omega))
        (by
          rw [hlen, show st.calls.length + 1 + M = st.calls.length + (M + 1) from by omega]
          exact hsucc)
        hpop (by omega)
      refine ⟨sv, ?_⟩
      rw [hrun]
      have hsl : (List.range M).map (fun i => SLEEP_TIME * (k + 1 + i) ^ 2)
          = (List.range M).map ((fun i => SLEEP_TIME * (k + i) ^ 2) ∘ Nat.succ) :=
        List.map_congr_left (fun a _ => by
          show SLEEP_TIME * (k + 1 + a) ^ 2 = SLEEP_TIME * (k + (a + 1)) ^ 2
          ring_nf)
      simp only [logSleep, logCall]
      rw [List.range_succ_eq_map, List.map_cons, List.map_map, ← hsl]
      simp [List.replicate_succ]

/-! ### The claims -/

/-- Claim C9: `get_game_file` probes the store in the order canonical id,
plus-one-day id, minus-one-day id, and returns the first of these keys
whose file exists; it returns the plus-one key whenever the canonical
file is absent and the plus-one file exists, and the minus-one key when
none of the three files exists (or only the minus-one file does). -/
theorem C9_probe_order (feed season : String) (game : Game) (st : St) :
    (get_game_file feed season game st
      = ([get_filename feed season [("game", (get_game_ids game).1)],
          get_filename feed season [("game", (get_game_ids game).2.1)],
          get_filename feed season [("game", (get_game_ids game).2.2)]].find?
            (fun fn => hasFile st fn)).getD
          (get_filename feed season [("game", (get_game_ids game).2.2)])
    ∧ (hasFile st (get_filename feed season [("game", (get_game_ids game).1)]) = false →
       hasFile st (get_filename feed season [("game", (get_game_ids game).2.1)]) = true →
       get_game_file feed season game st
         = get_filename feed season [("game", (get_game_ids game).2.1)])
    ∧ (hasFile st (get_filename feed season [("game", (get_game_ids game).1)]) = false →
       hasFile st (get_filename feed season [("game", (get_game_ids game).2.1)]) = false →
       get_game_file feed season game st
         = get_filename feed season [("game", (get_game_ids game).2.2)])) := by
  refine ⟨?_, ?_, ?_⟩
  · exact probe_first_existing st
      (get_filename feed season [("game", (get_game_ids game).1)])
      (get_filename feed season [("game", (get_game_ids game).2.1)])
      (get_filename feed season [("game", (get_game_ids game).2.2)])
  · intro h1 h2
    simp only [get_game_file]
    rw [if_neg (by simp [h1]), if_pos h2]
  · intro h1 h2
    simp only [get_game_file]
    rw [if_neg (by simp [h1]), if_neg (by simp [h2])]

/-- Witness for C9 at a concrete game and two concrete stores: when only
the plus-one file exists it is returned; on an empty store the minus-one
name is returned. -/
theorem C9_probe_order_witness :
    get_game_file "game_boxscore" "2014-2015-regular" sampleGame
        ⟨[(get_filename "game_boxscore" "2014-2015-regular"
            [("game", "20141006-DAL-HOU")], .null)], [], []⟩
      = get_filename "game_boxscore" "2014-2015-regular" [("game", "20141006-DAL-HOU")]
    ∧ get_game_file "game_boxscore" "2014-2015-regular" sampleGame emptyStore
      = get_filename "game_boxscore" "2014-2015-regular" [("game", "20141004-DAL-HOU")] := by
  constructor
  · exact (C9_probe_order "game_boxscore" "2014-2015-regular" sampleGame _).2.1 (by rfl) (by rfl)
  · exact (C9_probe_order "game_boxscore" "2014-2015-regular" sampleGame _).2.2 (by rfl) (by rfl)

/-- Claim C10 (implicit): in `get_filename` the separating dot appears only
when both the parameter key and the parameter value are non-empty; a
parameter with an empty key is rendered in the same dotless form even
when its value is non-empty. -/
theorem C10_dotless_forms :
    (∀ feed season ps, get_filename feed season ps
        = "season." ++ season ++ "--feed." ++ feed
          ++ catStrings (ps.map paramSegment) ++ ".json")
    ∧ (∀ k v : String, k ≠ "" → v ≠ "" → paramSegment (k, v) = "--" ++ k ++ "." ++ v)
    ∧ (∀ k v : String, k = "" ∨ v = "" → paramSegment (k, v) = "--" ++ k ++ v)
    ∧ (∀ v : String, paramSegment ("", v) = "--" ++ v) := by
  refine ⟨get_filename_eq, ?_, ?_, ?_⟩
  · intro k v hk hv
    unfold paramSegment
    rw [if_pos ⟨hk, hv⟩]
  · intro k v h
    unfold paramSegment
    rw [if_neg (by tauto)]
  · intro v
    unfold paramSegment
    rw [if_neg (by simp)]
    rfl

/-- Witness for C10: the dotted and dotless renderings at concrete
parameters, including a non-empty value under an empty key. -/
theorem C10_dotless_forms_witness :
    paramSegment ("week", "5") = "--" ++ "week" ++ "." ++ "5"
    ∧ paramSegment ("errors", "") = "--" ++ "errors" ++ ""
    ∧ paramSegment ("", "value") = "--" ++ "value" := by
  refine ⟨?_, ?_, ?_⟩
  · exact C10_dotless_forms.2.1 "week" "5" (by decide) (by decide)
  · exact C10_dotless_forms.2.2.1 "errors" "" (Or.inr rfl)
  · exact C10_dotless_forms.2.2.2 "value"

/-- Counterexample to C8 as stated: two different orderings of the same
two parameters that produce the same artifact key, because one key
contains dash and dot characters that make the encoding ambiguous. -/
theorem C8_counterexample :
    (([("a", "b"), ("a.b--a", "b")] : List (String × String))
        ≠ [("a.b--a", "b"), ("a", "b")])
    ∧ ([("a.b--a", "b"), ("a", "b")] : List (String × String))
        = List.reverse [("a", "b"), ("a.b--a", "b")]
    ∧ get_filename "f" "s" [("a", "b"), ("a.b--a", "b")]
        = get_filename "f" "s" [("a.b--a", "b"), ("a", "b")] :=
  ⟨by decide, by decide, rfl⟩

/-- Claim C8 (amended): `get_filename` is a pure function yielding the
documented format with parameters appended in call order (empty-valued
parameters dotless); equal inputs including parameter order yield an
equal key; and different parameter lists — in particular different
orderings of the same parameters — yield different keys provided every
key and value is non-empty and contains neither a dash nor a dot. -/
theorem C8_key_scheme_amended :
    (∀ feed season ps, get_filename feed season ps
        = "season." ++ season ++ "--feed." ++ feed
          ++ catStrings (ps.map paramSegment) ++ ".json")
    ∧ (∀ (feed season : String) (ps : List (String × String))
        (feed2 season2 : String) (ps2 : List (String × String)),
        feed = feed2 → season = season2 → ps = ps2 →
        get_filename feed season ps = get_filename feed2 season2 ps2)
    ∧ (∀ (feed season : String) (ps qs : List (String × String)),
        (∀ kv ∈ ps, plainPair kv) → (∀ kv ∈ qs, plainPair kv) →
        ps ≠ qs → get_filename feed season ps ≠ get_filename feed season qs) := by
  refine ⟨get_filename_eq, ?_, ?_⟩
  · rintro feed season ps _ _ _ rfl rfl rfl
    rfl
  · intro feed season ps qs hp hq hne h
    exact hne (get_filename_inj_plain feed season ps qs hp hq h)

/-- Witness for C8 (amended) at concrete inputs: determinism, and two
orderings of the same plain parameters yielding different keys. -/
theorem C8_key_scheme_amended_witness :
    get_filename "f" "s" [("a", "b")] = get_filename "f" "s" [("a", "b")]
    ∧ get_filename "f" "s" [("a", "b"), ("c", "d")]
        ≠ get_filename "f" "s" [("c", "d"), ("a", "b")] := by
  constructor
  · exact C8_key_scheme_amended.2.1 "f" "s" [("a", "b")] "f" "s" [("a", "b")] rfl rfl rfl
  · exact C8_key_scheme_amended.2.2 "f" "s" [("a", "b"), ("c", "d")] [("c", "d"), ("a", "b")]
      (by decide) (by decide) (by decide)

/-- Claim C1: a single-feed `get_feeds` call whose artifact file already
exists returns with no network call, no write and no ErrorRecord — the
state is returned untouched; and when the store lacks the file and the
remote responds success with a document that strips to truthy content,
calling `get_feeds` twice with the identical request makes exactly one
network call in total: the first call logs one call and writes the
artifact, the second returns that state unchanged. -/
theorem C1_cached_request_single_call :
    (∀ (remote : Nat → FetchResult) (fuel : Nat) (feed season : String)
        (additional : List (String × String)) (toTry : List (List (String × String))) (st : St),
      hasFile st (get_filename feed season additional) = true →
      get_feeds remote fuel [feed] season additional toTry st = .ok [] st)
    ∧ (∀ (remote : Nat → FetchResult) (fuel : Nat) (feed season : String)
        (additional : List (String × String)) (toTry : List (List (String × String)))
        (st : St) (doc d : Json),
      hasFile st (get_filename feed season additional) = false →
      remote st.calls.length = .success doc →
      popLastUpdated doc = .ok d →
      d.truthy = true →
      get_feeds remote fuel [feed] season additional toTry st
        = .ok [] (writeFile (logCall st (buildParams season additional feed))
            (get_filename feed season additional) d)
      ∧ get_feeds remote fuel [feed] season additional toTry
          (writeFile (logCall st (buildParams season additional feed))
            (get_filename feed season additional) d)
        = .ok [] (writeFile (logCall st (buildParams season additional feed))
            (get_filename feed season additional) d)
      ∧ (writeFile (logCall st (buildParams season additional feed))
          (get_filename feed season additional) d).calls
        = st.calls ++ [buildParams season additional feed]) := by
  constructor
  · intro remote fuel feed season additional toTry st h
    unfold get_feeds
    rw [feedLoopGen_skip h]
    rfl
  · intro remote fuel feed season additional toTry st doc d h0 h1 h2 h3
    refine ⟨?_, ?_, ?_⟩
    · unfold get_feeds
      rw [feedLoopGen_fetch h0, fetchAttempts_success h1 h2]
      dsimp only
      rw [postFetch_write h3]
      rfl
    · have hskip := hasFile_writeFile_self
        (logCall st (buildParams season additional feed))
        (get_filename feed season additional) d
      unfold get_feeds
      rw [feedLoopGen_skip hskip]
      rfl
    · rw [writeFile_calls]
      rfl

/-- Witness for C1: the cached skip and the two-call scenario at a
concrete request against a concrete remote. -/
theorem C1_cached_request_single_call_witness :
    get_feeds successRemote 5 ["seasonal_games"] "2014-2015-regular" [] []
        ⟨[(get_filename "seasonal_games" "2014-2015-regular" [], sampleStripped)], [], []⟩
      = .ok [] ⟨[(get_filename "seasonal_games" "2014-2015-regular" [], sampleStripped)], [], []⟩
    ∧ (get_feeds successRemote 5 ["seasonal_games"] "2014-2015-regular" [] [] emptyStore
        = .ok [] (writeFile (logCall emptyStore (buildParams "2014-2015-regular" [] "seasonal_games"))
            (get_filename "seasonal_games" "2014-2015-regular" []) sampleStripped)
      ∧ get_feeds successRemote 5 ["seasonal_games"] "2014-2015-regular" [] []
          (writeFile (logCall emptyStore (buildParams "2014-2015-regular" [] "seasonal_games"))
            (get_filename "seasonal_games" "2014-2015-regular" []) sampleStripped)
        = .ok [] (writeFile (logCall emptyStore (buildParams "2014-2015-regular" [] "seasonal_games"))
            (get_filename "seasonal_games" "2014-2015-regular" []) sampleStripped)
      ∧ (writeFile (logCall emptyStore (buildParams "2014-2015-regular" [] "seasonal_games"))
          (get_filename "seasonal_games" "2014-2015-regular" []) sampleStripped).calls
        = emptyStore.calls ++ [buildParams "2014-2015-regular" [] "seasonal_games"]) := by
  constructor
  · exact C1_cached_request_single_call.1 successRemote 5 "seasonal_games"
      "2014-2015-regular" [] [] _ (by rfl)
  · exact C1_cached_request_single_call.2 successRemote 5 "seasonal_games"
      "2014-2015-regular" [] [] emptyStore sampleDoc sampleStripped
      (by rfl) (by rfl) (by rfl) (by rfl)

/-- Counterexample to C4 as stated: a successful fetch whose non-empty
document lacks the `lastUpdatedOn` field persists nothing — the
unconditional `data.pop` raises KeyError instead. -/
theorem C4_counterexample :
    get_feeds noTimestampRemote 5 ["seasonal_games"] "2014-2015-regular" [] [] emptyStore
      = .crash .keyError ⟨[], [buildParams "2014-2015-regular" [] "seasonal_games"], []⟩
    ∧ readFile ⟨[], [buildParams "2014-2015-regular" [] "seasonal_games"], []⟩
        (get_filename "seasonal_games" "2014-2015-regular" []) = none :=
  ⟨rfl, rfl⟩

/-- Claim C4 (amended): for a successful fetch whose document contains the
`lastUpdatedOn` field and whose remaining content is non-empty, the
persisted artifact equals the retrieved document with that field removed;
for documents lacking the field the code raises KeyError and persists
nothing (see the counterexample). -/
theorem C4_strip_amended (remote : Nat → FetchResult) (fuel : Nat) (feed season : String)
    (additional : List (String × String)) (toTry : List (List (String × String)))
    (st : St) (fields : List (String × Json))
    (h0 : hasFile st (get_filename feed season additional) = false)
    (h1 : remote st.calls.length = .success (.obj fields))
    (h2 : fields.any (·.1 == "lastUpdatedOn") = true)
    (h3 : (Json.obj (fields.eraseP (·.1 == "lastUpdatedOn"))).truthy = true) :
    get_feeds remote fuel [feed] season additional toTry st
      = .ok [] (writeFile (logCall st (buildParams season additional feed))
          (get_filename feed season additional)
          (.obj (fields.eraseP (·.1 == "lastUpdatedOn"))))
    ∧ readFile (writeFile (logCall st (buildParams season additional feed))
          (get_filename feed season additional)
          (.obj (fields.eraseP (·.1 == "lastUpdatedOn"))))
        (get_filename feed season additional)
      = some (.obj (fields.eraseP (·.1 == "lastUpdatedOn"))) := by
  have hpop : popLastUpdated (.obj fields)
      = .ok (.obj (fields.eraseP (·.1 == "lastUpdatedOn"))) := by
    unfold popLastUpdated
    dsimp only
    rw [if_pos h2]
  constructor
  · unfold get_feeds
    rw [feedLoopGen_fetch h0, fetchAttempts_success h1 hpop]
    dsimp only
    rw [postFetch_write h3]
    rfl
  · exact readFile_writeFile_self _ _ _

/-- Witness for C4 (amended) at a concrete document containing the
timestamp field. -/
theorem C4_strip_amended_witness :
    get_feeds successRemote 5 ["seasonal_games"] "2014-2015-regular" [] [] emptyStore
      = .ok [] (writeFile (logCall emptyStore (buildParams "2014-2015-regular" [] "seasonal_games"))
          (get_filename "seasonal_games" "2014-2015-regular" [])
          (.obj ([("lastUpdatedOn", .str "t"), ("x", .num 1)].eraseP (·.1 == "lastUpdatedOn")))) := by
  exact (C4_strip_amended successRemote 5 "seasonal_games" "2014-2015-regular" [] []
    emptyStore [("lastUpdatedOn", .str "t"), ("x", .num 1)]
    (by rfl) (by rfl) (by rfl) (by rfl)).1

/-- Claim C5 (code bug): a nominally successful fetch that yields no
content raises instead of recording an ErrorRecord.  An empty document
crashes with KeyError inside `data.pop("lastUpdatedOn")`; a document
holding only the timestamp field reaches the empty-content error branch
but crashes reading the never-assigned local `status`.  Nothing is
written in either case and no error list is returned. -/
theorem C5_empty_content_raises :
    get_feeds emptyDocRemote 5 ["seasonal_games"] "2014-2015-regular" [] [] emptyStore
      = .crash .keyError ⟨[], [buildParams "2014-2015-regular" [] "seasonal_games"], []⟩
    ∧ get_feeds onlyTimestampRemote 5 ["seasonal_games"] "2014-2015-regular" [] [] emptyStore
      = .crash .nameError ⟨[], [buildParams "2014-2015-regular" [] "seasonal_games"], []⟩ :=
  ⟨rfl, rfl⟩


/-- Counterexample to C3 as stated: a 400 answer followed by a variant
success persists the artifact under the VARIANT's key, not the original
request's key (which stays absent), and the call then raises
UnboundLocalError reading the never-assigned `data` instead of returning
as resolved. -/
theorem C3_counterexample :
    get_feeds c3remote 5 ["game_boxscore"] "2014-2015-regular"
        [("game", "20141005-DAL-HOU")] [[("game", "20141006-DAL-HOU")]] emptyStore
      = .crash .nameError
          ⟨[(get_filename "game_boxscore" "2014-2015-regular"
              [("game", "20141006-DAL-HOU")], sampleStripped)],
           [buildParams "2014-2015-regular" [("game", "20141005-DAL-HOU")] "game_boxscore",
            buildParams "2014-2015-regular" [("game", "20141006-DAL-HOU")] "game_boxscore"],
           []⟩
    ∧ readFile
        ⟨[(get_filename "game_boxscore" "2014-2015-regular"
            [("game", "20141006-DAL-HOU")], sampleStripped)],
         [buildParams "2014-2015-regular" [("game", "20141005-DAL-HOU")] "game_boxscore",
          buildParams "2014-2015-regular" [("game", "20141006-DAL-HOU")] "game_boxscore"],
         []⟩
        (get_filename "game_boxscore" "2014-2015-regular" [("game", "20141005-DAL-HOU")])
      = none :=
  ⟨rfl, rfl⟩

/-- Claim C3 (amended): on a malformed-request (400) response with
alternate-parameter variants supplied, the fetcher retries with each
variant's parameters in order via recursive single-feed calls; when a
variant succeeds its artifact is persisted under the VARIANT's key and
no ErrorRecord is recorded, but the outer single-feed call then raises
UnboundLocalError evaluating `not data` (the local `data` was never
assigned in its frame), so the request is not cleanly resolved. -/
theorem C3_variant_key_amended (remote : Nat → FetchResult) (fuel : Nat)
    (feed season : String) (orig v1 v2 : List (String × String)) (st : St) (doc d : Json)
    (h0 : hasFile st (get_filename feed season orig) = false)
    (h1 : hasFile st (get_filename feed season v1) = false)
    (h2 : hasFile st (get_filename feed season v2) = false)
    (h3 : remote st.calls.length = .warning 400)
    (h4 : remote (st.calls.length + 1) = .warning 400)
    (h5 : remote (st.calls.length + 2) = .success doc)
    (h6 : popLastUpdated doc = .ok d)
    (h7 : d.truthy = true)
    (h8 : get_filename feed season v2 ≠ get_filename feed season orig) :
    get_feeds remote fuel [feed] season orig [v1, v2] st
      = .crash .nameError
          (writeFile ⟨st.files,
            st.calls ++ [buildParams season orig feed, buildParams season v1 feed,
              buildParams season v2 feed], st.sleeps⟩
            (get_filename feed season v2) d)
    ∧ readFile
        (writeFile ⟨st.files,
          st.calls ++ [buildParams season orig feed, buildParams season v1 feed,
            buildParams season v2 feed], st.sleeps⟩
          (get_filename feed season v2) d)
        (get_filename feed season v2) = some d
    ∧ readFile
        (writeFile ⟨st.files,
          st.calls ++ [buildParams season orig feed, buildParams season v1 feed,
            buildParams season v2 feed], st.sleeps⟩
          (get_filename feed season v2) d)
        (get_filename feed season orig) = readFile st (get_filename feed season orig) := by
  have h4' : remote ((logCall st (buildParams season orig feed)).calls.length)
      = .warning 400 := by
    rw [show (logCall st (buildParams season orig feed)).calls.length
      = st.calls.length + 1 by simp [logCall]]
    exact h4
  have h1' : hasFile (logCall st (buildParams season orig feed))
      (get_filename feed season v1) = false := h1
  have hv1 : getFeedsNoVar remote fuel [feed] season v1
      (logCall st (buildParams season orig feed))
      = .ok [⟨buildParams season v1 feed, 400⟩]
          (logCall (logCall st (buildParams season orig feed))
            (buildParams season v1 feed)) := by
    unfold getFeedsNoVar
    rw [feedLoopGen_fetch h1', fetchAttempts_400 h4']
    dsimp only
    rw [postFetch_err]
    rfl
  have h5' : remote ((logCall (logCall st (buildParams season orig feed))
      (buildParams season v1 feed)).calls.length) = .success doc := by
    rw [show (logCall (logCall st (buildParams season orig feed))
      (buildParams season v1 feed)).calls.length = st.calls.length + 2 by
        simp [logCall]]
    exact h5
  have h2' : hasFile (logCall (logCall st (buildParams season orig feed))
      (buildParams season v1 feed)) (get_filename feed season v2) = false := h2
  have hv2 : getFeedsNoVar remote fuel [feed] season v2
      (logCall (logCall st (buildParams season orig feed)) (buildParams season v1 feed))
      = .ok [] (writeFile
          (logCall (logCall (logCall st (buildParams season orig feed))
            (buildParams season v1 feed)) (buildParams season v2 feed))
          (get_filename feed season v2) d) := by
    unfold getFeedsNoVar
    rw [feedLoopGen_fetch h2', fetchAttempts_success h5' h6]
    dsimp only
    rw [postFetch_write h7]
    rfl
  have hvl : variantLoop remote fuel feed season [v1, v2]
      (logCall st (buildParams season orig feed))
      = .ok 0 (writeFile
          (logCall (logCall (logCall st (buildParams season orig feed))
            (buildParams season v1 feed)) (buildParams season v2 feed))
          (get_filename feed season v2) d) := by
    rw [variantLoop, hv1]
    dsimp only
    rw [variantLoop, hv2]
    simp
  have hstate : logCall (logCall (logCall st (buildParams season orig feed))
      (buildParams season v1 feed)) (buildParams season v2 feed)
      = ⟨st.files, st.calls ++ [buildParams season orig feed, buildParams season v1 feed,
          buildParams season v2 feed], st.sleeps⟩ := by
    simp [logCall]
  refine ⟨?_, readFile_writeFile_self _ _ _, readFile_writeFile_ne _ _ _ _ h8.symm⟩
  unfold get_feeds
  rw [feedLoopGen_fetch h0, fetchAttempts_400 h3]
  rw [if_neg (by simp)]
  rw [hvl]
  dsimp only
  rw [postFetch_unbound_data]
  dsimp only
  rw [hstate]

/-- Witness for C3 (amended) at a concrete request with two variants: the
calls go out with the original then each variant's parameters in order,
the variant artifact is written under the variant key, and the call ends
in the UnboundLocalError crash. -/
theorem C3_variant_key_amended_witness :
    get_feeds c3remoteTwo 5 ["game_boxscore"] "2014-2015-regular"
        [("game", "A")] [[("game", "B")], [("game", "C")]] emptyStore
      = .crash .nameError
          (writeFile ⟨emptyStore.files,
            emptyStore.calls ++ [buildParams "2014-2015-regular" [("game", "A")] "game_boxscore",
              buildParams "2014-2015-regular" [("game", "B")] "game_boxscore",
              buildParams "2014-2015-regular" [("game", "C")] "game_boxscore"],
            emptyStore.sleeps⟩
            (get_filename "game_boxscore" "2014-2015-regular" [("game", "C")]) sampleStripped) := by
  exact (C3_variant_key_amended c3remoteTwo 5 "game_boxscore" "2014-2015-regular"
    [("game", "A")] [("game", "B")] [("game", "C")] emptyStore sampleDoc sampleStripped
    (by rfl) (by rfl) (by rfl) (by rfl) (by rfl) (by rfl) (by rfl) (by rfl)
    (by decide)).1

/-- Claim C7: against `N` consecutive transient responses (each of status
429, 499, 502 or 503) followed by a success, the single-feed fetch makes
`N + 1` network calls, sleeps `N` times with the `j`-th sleep (counting
attempts from 1) lasting `SLEEP_TIME * j ^ 2` seconds — so the `N`-th and
last sleep lasts `SLEEP_TIME * N ^ 2` — and then succeeds, persisting the
stripped artifact.  The fuel bound only says the modelled loop is run
long enough; the loop itself has no attempt cap. -/
theorem C7_backoff (remote : Nat → FetchResult) (fuel N : Nat) (feed season : String)
    (additional : List (String × String)) (toTry : List (List (String × String)))
    (st : St) (doc d : Json)
    (htr : ∀ i, i < N → ∃ s, remote (st.calls.length + i) = .warning s
        ∧ (s = 429 ∨ s = 499 ∨ s = 502 ∨ s = 503))
    (hsucc : remote (st.calls.length + N) = .success doc)
    (hpop : popLastUpdated doc = .ok d)
    (htruthy : d.truthy = true)
    (hfile : hasFile st (get_filename feed season additional) = false)
    (hfuel : N ≤ fuel) :
    get_feeds remote fuel [feed] season additional toTry st
      = .ok [] (writeFile
          ⟨st.files, st.calls ++ List.replicate (N + 1) (buildParams season additional feed),
           st.sleeps ++ (List.range N).map (fun i => SLEEP_TIME * (i + 1) ^ 2)⟩
          (get_filename feed season additional) d)
    ∧ (∀ j, j < N →
        ((List.range N).map (fun i => SLEEP_TIME * (i + 1) ^ 2))[j]?
          = some (SLEEP_TIME * (j + 1) ^ 2)) := by
  constructor
  · obtain ⟨sv, hrun⟩ := fetchAttempts_transient_run remote _
      (buildParams season additional feed) doc d N fuel 1 none none st htr hsucc hpop hfuel
    unfold get_feeds
    rw [feedLoopGen_fetch hfile, hrun]
    dsimp only
    rw [postFetch_write htruthy]
    have hmap : (List.range N).map (fun i => SLEEP_TIME * (1 + i) ^ 2)
        = (List.range N).map (fun i => SLEEP_TIME * (i + 1) ^ 2) :=
      List.map_congr_left (fun a _ => by rw [Nat.add_comm 1 a])
    rw [hmap]
    rfl
  · intro j hj
    simp [List.getElem?_range hj]

/-- Witness for C7: two consecutive 429 responses then success — sleeps of
10 and 40 seconds, three calls, artifact written. -/
theorem C7_backoff_witness :
    get_feeds c7remote 5 ["seasonal_games"] "2014-2015-regular" [] [] emptyStore
      = .ok [] (writeFile
          ⟨emptyStore.files,
           emptyStore.calls ++ List.replicate 3 (buildParams "2014-2015-regular" [] "seasonal_games"),
           emptyStore.sleeps ++ (List.range 2).map (fun i => SLEEP_TIME * (i + 1) ^ 2)⟩
          (get_filename "seasonal_games" "2014-2015-regular" []) sampleStripped) := by
  exact (C7_backoff c7remote 5 2 "seasonal_games" "2014-2015-regular" [] [] emptyStore
    sampleDoc sampleStripped
    (fun i hi => ⟨429, by
      rw [show emptyStore.calls.length + i = i by simp [emptyStore]]
      simp [c7remote, hi], Or.inl rfl⟩)
    (by rfl) (by rfl) (by rfl) (by rfl) (by omega)).1


/-- Claim C2 (code bug): with all per-game fetches complete, the season
assembler writes the composite artifact in game-list order — but then
crashes with FileNotFoundError inside `delete_games_for_season_and_feed`
(whose `to_delete += filename` slip collects single characters, so
`os.remove("s")` runs), deleting no per-game intermediate at all.  At the
concrete failing input the final state still holds the intermediate and
the freshly written composite. -/
theorem C2_cleanup_crash :
    get_full_season_data_feed_block successRemote 5 "game_boxscore" "2014-2015-regular"
        [sampleGame]
        ⟨[(get_filename "game_boxscore" "2014-2015-regular"
            [("game", (get_game_ids sampleGame).1)], sampleStripped)], [], []⟩
      = .crash .fileNotFound
          ⟨[(get_filename "game_boxscore" "2014-2015-regular"
              [("game", (get_game_ids sampleGame).1)], sampleStripped),
            (get_filename "game_boxscore" "2014-2015-regular" [], .arr [sampleStripped])],
           [], []⟩
    ∧ readFile
        ⟨[(get_filename "game_boxscore" "2014-2015-regular"
            [("game", (get_game_ids sampleGame).1)], sampleStripped),
          (get_filename "game_boxscore" "2014-2015-regular" [], .arr [sampleStripped])],
         [], []⟩
        (get_filename "game_boxscore" "2014-2015-regular"
          [("game", (get_game_ids sampleGame).1)])
      = some sampleStripped
    ∧ readFile
        ⟨[(get_filename "game_boxscore" "2014-2015-regular"
            [("game", (get_game_ids sampleGame).1)], sampleStripped),
          (get_filename "game_boxscore" "2014-2015-regular" [], .arr [sampleStripped])],
         [], []⟩
        (get_filename "game_boxscore" "2014-2015-regular" [])
      = some (.arr [sampleStripped]) :=
  ⟨rfl, rfl, rfl⟩

/-- Claim C6: when per-game fetching accumulates at least one ErrorRecord
(and the composite does not exist), both assembler blocks write exactly
the accumulated records to the unit's dedicated error artifact —
replacing any prior one — write no composite, and delete nothing: every
file other than the error artifact reads exactly as it did when the
fetch phase finished, and the error-artifact name differs from the
composite name. -/
theorem C6_error_artifact :
    (∀ (remote : Nat → FetchResult) (fuel : Nat) (feed season : String)
        (games : List Game) (st st1 : St) (errors : List ErrorRecord),
      hasFile st (get_filename feed season []) = false →
      perGameFetch remote fuel feed season games [] st = .ok errors st1 →
      errors.isEmpty = false →
      get_full_season_data_feed_block remote fuel feed season games st
        = .ok () (errorDump st1 (get_filename feed season [("errors", "")]) errors)
      ∧ readFile (errorDump st1 (get_filename feed season [("errors", "")]) errors)
          (get_filename feed season [("errors", "")]) = some (errorsToJson errors)
      ∧ (∀ fn, fn ≠ get_filename feed season [("errors", "")] →
          readFile (errorDump st1 (get_filename feed season [("errors", "")]) errors) fn
            = readFile st1 fn)
      ∧ get_filename feed season [] ≠ get_filename feed season [("errors", "")])
    ∧ (∀ (remote : Nat → FetchResult) (fuel : Nat) (feed season week : String)
        (games : List Game) (st st1 : St) (errors : List ErrorRecord),
      hasFile st (get_filename feed season [("week", week)]) = false →
      perGameFetch remote fuel feed season games [] st = .ok errors st1 →
      errors.isEmpty = false →
      get_data_for_week_feed_block remote fuel feed season week games st
        = .ok () (errorDump st1
            (get_filename feed season [("week", week), ("errors", "")]) errors)
      ∧ readFile (errorDump st1
            (get_filename feed season [("week", week), ("errors", "")]) errors)
          (get_filename feed season [("week", week), ("errors", "")])
          = some (errorsToJson errors)
      ∧ (∀ fn, fn ≠ get_filename feed season [("week", week), ("errors", "")] →
          readFile (errorDump st1
              (get_filename feed season [("week", week), ("errors", "")]) errors) fn
            = readFile st1 fn)
      ∧ get_filename feed season [("week", week)]
          ≠ get_filename feed season [("week", week), ("errors", "")]) := by
  have hrd : ∀ (st1 : St) (ef : String) (errors : List ErrorRecord) (fn : String),
      fn ≠ ef → readFile (errorDump st1 ef errors) fn = readFile st1 fn := by
    intro st1 ef errors fn hfn
    unfold errorDump
    rw [readFile_writeFile_ne _ _ _ _ hfn]
    split
    · rw [readFile_removeFile_ne _ _ _ hfn]
    · rfl
  constructor
  · intro remote fuel feed season games st st1 errors hsk hper herr
    refine ⟨?_, readFile_writeFile_self _ _ _, hrd st1 _ errors, ?_⟩
    · simp only [get_full_season_data_feed_block]
      rw [if_neg (by simp [hsk]), hper]
      dsimp only
      rw [if_neg (by simp [herr])]
      rfl
    · exact get_filename_ne_errors feed season []
  · intro remote fuel feed season week games st st1 errors hsk hper herr
    refine ⟨?_, readFile_writeFile_self _ _ _, hrd st1 _ errors, ?_⟩
    · simp only [get_data_for_week_feed_block]
      rw [if_neg (by simp [hsk]), hper]
      dsimp only
      rw [if_neg (by simp [herr])]
      rfl
    · exact get_filename_ne_errors feed season [("week", week)]

/-- Witness for C6: one game against an always-400 remote — one
ErrorRecord accumulated from the exhausted canonical and variant
attempts, dumped to the season unit's and the week unit's error
artifacts. -/
theorem C6_error_artifact_witness :
    get_full_season_data_feed_block badRemote400 5 "game_boxscore" "2014-2015-regular"
        [sampleGame] emptyStore
      = .ok () (errorDump
          ⟨[], [buildParams "2014-2015-regular"
                  [("game", (get_game_ids sampleGame).1)] "game_boxscore",
                buildParams "2014-2015-regular"
                  [("game", (get_game_ids sampleGame).2.1)] "game_boxscore",
                buildParams "2014-2015-regular"
                  [("game", (get_game_ids sampleGame).2.2)] "game_boxscore"], []⟩
          (get_filename "game_boxscore" "2014-2015-regular" [("errors", "")])
          [⟨buildParams "2014-2015-regular"
              [("game", (get_game_ids sampleGame).1)] "game_boxscore", 400⟩])
    ∧ get_data_for_week_feed_block badRemote400 5 "game_boxscore" "2014-2015-regular" "5"
        [sampleGame] emptyStore
      = .ok () (errorDump
          ⟨[], [buildParams "2014-2015-regular"
                  [("game", (get_game_ids sampleGame).1)] "game_boxscore",
                buildParams "2014-2015-regular"
                  [("game", (get_game_ids sampleGame).2.1)] "game_boxscore",
                buildParams "2014-2015-regular"
                  [("game", (get_game_ids sampleGame).2.2)] "game_boxscore"], []⟩
          (get_filename "game_boxscore" "2014-2015-regular" [("week", "5"), ("errors", "")])
          [⟨buildParams "2014-2015-regular"
              [("game", (get_game_ids sampleGame).1)] "game_boxscore", 400⟩]) := by
  constructor
  · exact (C6_error_artifact.1 badRemote400 5 "game_boxscore" "2014-2015-regular"
      [sampleGame] emptyStore _ _ (by rfl) (by rfl) (by rfl)).1
  · exact (C6_error_artifact.2 badRemote400 5 "game_boxscore" "2014-2015-regular" "5"
      [sampleGame] emptyStore _ _ (by rfl) (by rfl) (by rfl)).1


end Slurper
